import Mathlib

/-
Verification of the Brother QL label-printer driver (package ql of pjanx/sklad).

The definitions below are a shallow embedding of the Go source:
  - ql/ql.go           : pack, makeBitmapData, makeBitmapDataRB, GetMediaInfo,
                         makePrintData, Status accessors, Errors
  - the printer session: Print / pollStatusBytes polling loop

Machine integers are modelled as Nat (byte values, 16-bit color channels) and
Int (Go int).  A Go runtime panic from an out-of-bounds array index is
modelled by Except.error.
-/

/-- Color sample as returned by a Go image color RGBA() call: four
alpha-premultiplied channels, each in the range 0..0xffff. -/
structure RGBA where
  r : Nat
  g : Nat
  b : Nat
  a : Nat
  deriving DecidableEq

/-- A Go image.Image as the driver sees it: integer bounds (Min.X, Min.Y,
Max.X, Max.Y) plus a total pixel function (Go At() is total; outside the
bounds it returns the zero color for the standard implementations). -/
structure QLImage where
  minX : Int
  minY : Int
  maxX : Int
  maxY : Int
  pixel : Int → Int → RGBA

/-- printBytes constant from ql.go (90 bytes per packed raster row). -/
def printBytes : Nat := 90

/-- printPins constant from ql.go (printBytes * 8 = 720 pins per row). -/
def printPins : Nat := printBytes * 8

/-- One byte produced by pack in ql.go: bits of the 8 pins i*8 .. i*8+7,
first pin shifted into the most-significant bit. -/
def packByte (data : Nat → Bool) (i : Nat) : Nat :=
  (List.range 8).foldl (fun b j => b * 2 + (if data (i * 8 + j) then 1 else 0)) 0

/-- pack from ql.go: packs the 720-pin boolean row into 90 bytes,
8 pixels per byte, most-significant bit first. -/
def pack (data : Nat → Bool) : List Nat :=
  (List.range printBytes).map (packByte data)

/-- Bit of a packed byte list at pin position off: bit 7 - off % 8
of byte off / 8 (so bit index 0 of a byte is its most-significant bit,
matching the pack order). -/
def bitAt (data : List Nat) (off : Nat) : Nat :=
  data.getD (off / 8) 0 / 2 ^ (7 - off % 8) % 2

/-- Monochrome pixel classification inside makeBitmapData (ql.go line 199):
r < 0x4000 && g < 0x4000 && b < 0x4000 && a >= 0x8000. -/
def monoClassify (c : RGBA) : Bool :=
  decide (c.r < 0x4000) && decide (c.g < 0x4000) && decide (c.b < 0x4000) &&
    decide (0x8000 ≤ c.a)

/-- Red-plane pixel classification inside makeBitmapDataRB (ql.go line 155):
r >= 0xc000 && g < 0x4000 && b < 0x4000 && a >= 0x8000. -/
def redClassify (c : RGBA) : Bool :=
  decide (0xc000 ≤ c.r) && decide (c.g < 0x4000) && decide (c.b < 0x4000) &&
    decide (0x8000 ≤ c.a)

/-- Black-plane pixel classification inside makeBitmapDataRB (ql.go line 157):
r < 0x4000 && g < 0x4000 && b < 0x4000 && a >= 0x8000. -/
def blackClassify (c : RGBA) : Bool :=
  decide (c.r < 0x4000) && decide (c.g < 0x4000) && decide (c.b < 0x4000) &&
    decide (0x8000 ≤ c.a)

/-- State of the pixels (or redcells / blackcells) array after the inner
x loop of one row y: the loop starts at offset margin and iterates x
backwards from maxX - 1 down to minX, so offset margin + k receives the
classification of column maxX - 1 - k; n is the column count
maxX - minX; all other cells keep their previous contents. -/
def rowPixelsWith (classify : RGBA → Bool) (img : QLImage) (margin maxX : Int)
    (n : Nat) (y : Int) (prev : Nat → Bool) : Nat → Bool :=
  fun off =>
    if margin ≤ (off : Int) ∧ (off : Int) < margin + n
    then classify (img.pixel (maxX - 1 - ((off : Int) - margin)) y)
    else prev off

/-- Clamp of bounds.Max.Y in makeBitmapData / makeBitmapDataRB:
if bounds.Dy() > length then Max.Y becomes Min.Y + length. -/
def clampedMaxY (img : QLImage) (length : Int) : Int :=
  if img.maxY - img.minY > length then img.minY + length else img.maxY

/-- Clamp of bounds.Max.X in makeBitmapData / makeBitmapDataRB:
if bounds.Dx() > printPins - margin then Max.X becomes Min.X + printPins
(the source adds the full printPins, not printPins - margin). -/
def clampedMaxX (img : QLImage) (margin : Int) : Int :=
  if img.maxX - img.minX > (printPins : Int) - margin
  then img.minX + (printPins : Int) else img.maxX

/-- Number of image rows the y loop iterates (after the Y clamp). -/
def windowRows (img : QLImage) (length : Int) : Nat :=
  (clampedMaxY img length - img.minY).toNat

/-- Number of columns the x loop iterates per row (after the X clamp). -/
def windowCols (img : QLImage) (margin : Int) : Nat :=
  (clampedMaxX img margin - img.minX).toNat

/-- Condition under which the inner loop of makeBitmapData or
makeBitmapDataRB indexes the 720-cell pixels array out of bounds
(offset runs from margin to margin + windowCols - 1, on every row):
a Go runtime panic. -/
def pixelsIndexOOB (img : QLImage) (margin length : Int) : Prop :=
  0 < windowRows img length ∧ 0 < windowCols img margin ∧
    (margin < 0 ∨ (printPins : Int) < margin + (windowCols img margin : Int))

instance (img : QLImage) (margin length : Int) :
    Decidable (pixelsIndexOOB img margin length) := by
  unfold pixelsIndexOOB
  infer_instance

/-- The y loop of makeBitmapData (monochrome, ql.go lines 192-206): for each
row emit the 3-byte header g 0x00 90 followed by the packed row; the pixels
array state persists across rows. -/
def makeBitmapDataLoopMono (img : QLImage) (margin maxX : Int) (n : Nat) :
    List Int → (Nat → Bool) → List Nat
  | [], _ => []
  | y :: ys, px =>
    let px2 := rowPixelsWith monoClassify img margin maxX n y px
    ([103, 0, 90] ++ pack px2) ++ makeBitmapDataLoopMono img margin maxX n ys px2

/-- The trailing blank-row padding loop of makeBitmapData (ql.go lines
207-210): while length stays positive, emit a header plus 90 zero bytes. -/
def blankRowsMono : Nat → List Nat
  | 0 => []
  | m + 1 => ([103, 0, 90] ++ List.replicate 90 0) ++ blankRowsMono m

/-- makeBitmapData of ql.go (lines 177-212), monochrome branch: clamp the
bounds, run the row loop from an all-false pixels array, then pad with blank
rows until the length counter is exhausted.  Except.error models the Go
panic from the out-of-bounds pixels index. -/
def makeBitmapDataMono (img : QLImage) (margin length : Int) :
    Except Unit (List Nat) :=
  if pixelsIndexOOB img margin length then Except.error () else
    Except.ok (
      makeBitmapDataLoopMono img margin (clampedMaxX img margin)
          (windowCols img margin)
          ((List.range (windowRows img length)).map (fun t : Nat => img.minY + (t : Int)))
          (fun _ => false)
        ++ blankRowsMono ((length - (windowRows img length : Int)).toNat))

/-- The y loop of makeBitmapDataRB (ql.go lines 148-166): for each row emit
the black plane (header w 0x01 90) then the red plane (header w 0x02 90);
both cell arrays persist across rows. -/
def makeBitmapDataLoopRB (img : QLImage) (margin maxX : Int) (n : Nat) :
    List Int → (Nat → Bool) → (Nat → Bool) → List Nat
  | [], _, _ => []
  | y :: ys, red, black =>
    let red2 := rowPixelsWith redClassify img margin maxX n y red
    let black2 := rowPixelsWith blackClassify img margin maxX n y black
    (([119, 1, 90] ++ pack black2) ++ ([119, 2, 90] ++ pack red2))
      ++ makeBitmapDataLoopRB img margin maxX n ys red2 black2

/-- The trailing blank-row padding loop of makeBitmapDataRB (ql.go lines
167-172): two blank planes per remaining length unit. -/
def blankRowsRB : Nat → List Nat
  | 0 => []
  | m + 1 =>
    (([119, 1, 90] ++ List.replicate 90 0) ++ ([119, 2, 90] ++ List.replicate 90 0))
      ++ blankRowsRB m

/-- makeBitmapDataRB of ql.go (lines 138-174): red-black two-plane variant,
same clamps and same out-of-bounds behavior as the monochrome branch. -/
def makeBitmapDataRB (img : QLImage) (margin length : Int) :
    Except Unit (List Nat) :=
  if pixelsIndexOOB img margin length then Except.error () else
    Except.ok (
      makeBitmapDataLoopRB img margin (clampedMaxX img margin)
          (windowCols img margin)
          ((List.range (windowRows img length)).map (fun t : Nat => img.minY + (t : Int)))
          (fun _ => false) (fun _ => false)
        ++ blankRowsRB ((length - (windowRows img length : Int)).toNat))

/-- makeBitmapData dispatcher of ql.go (lines 177-181): the rb flag selects
the red-black encoder, otherwise the monochrome body runs. -/
def makeBitmapData (img : QLImage) (rb : Bool) (margin length : Int) :
    Except Unit (List Nat) :=
  if rb then makeBitmapDataRB img margin length
  else makeBitmapDataMono img margin length

/-- MediaInfo record of ql.go: side margin, printable width and die-cut
printable length, all in 300dpi pins (PrintAreaLength 0 = continuous tape). -/
structure MediaInfo where
  SideMarginPins : Int
  PrintAreaPins : Int
  PrintAreaLength : Int
  deriving DecidableEq

/-- The static media table of ql.go (lines 80-107), keyed by
(width mm, length mm). -/
def media : List ((Int × Int) × MediaInfo) :=
  [((12, 0), ⟨29, 106, 0⟩),
   ((29, 0), ⟨6, 306, 0⟩),
   ((38, 0), ⟨12, 413, 0⟩),
   ((50, 0), ⟨12, 554, 0⟩),
   ((54, 0), ⟨0, 590, 0⟩),
   ((62, 0), ⟨12, 696, 0⟩),
   ((17, 54), ⟨0, 165, 566⟩),
   ((17, 87), ⟨0, 165, 956⟩),
   ((23, 23), ⟨42, 236, 202⟩),
   ((29, 42), ⟨6, 306, 425⟩),
   ((29, 90), ⟨6, 306, 991⟩),
   ((38, 90), ⟨12, 413, 991⟩),
   ((39, 48), ⟨6, 425, 495⟩),
   ((52, 29), ⟨0, 578, 271⟩),
   ((54, 29), ⟨59, 602, 271⟩),
   ((60, 86), ⟨24, 672, 954⟩),
   ((62, 29), ⟨12, 696, 271⟩),
   ((62, 100), ⟨12, 696, 1109⟩),
   ((12, 12), ⟨113, 94, 94⟩),
   ((24, 24), ⟨42, 236, 236⟩),
   ((58, 58), ⟨51, 618, 618⟩)]

/-- GetMediaInfo of ql.go (lines 109-114): exact-pair lookup in the media
table, none when the pair has no entry. -/
def GetMediaInfo (widthMM lengthMM : Int) : Option MediaInfo :=
  (media.find? (fun e => e.1.1 == widthMM && e.1.2 == lengthMM)).map (fun e => e.2)

/-- Status of ql.go: the raw 32-byte status packet, byte values. -/
def Status : Type := Fin 32 → Nat

/-- MediaWidthMM accessor: int(s[10]). -/
def Status.MediaWidthMM (s : Status) : Int := (s 10 : Int)

/-- MediaLengthMM accessor: int(s[17]). -/
def Status.MediaLengthMM (s : Status) : Int := (s 17 : Int)

/-- Type() accessor of the ql package: StatusType(s[18]). -/
def Status.statusType (s : Status) : Nat := s 18

/-- Phase() accessor of the ql package: StatusPhase(s[19]). -/
def Status.phase (s : Status) : Nat := s 19

/-- Phase number as decoded by the status dump: int(s[20])*256 + int(s[21])
(big-endian 16-bit). -/
def Status.phaseNumber (s : Status) : Int := (s 20 : Int) * 256 + (s 21 : Int)

/-- StatusTypeReplyToRequest constant (0x00). -/
def StatusTypeReplyToRequest : Nat := 0x00

/-- StatusTypePrintingCompleted constant (0x01). -/
def StatusTypePrintingCompleted : Nat := 0x01

/-- StatusTypeErrorOccurred constant (0x02). -/
def StatusTypeErrorOccurred : Nat := 0x02

/-- StatusTypeTurnedOff constant (0x04). -/
def StatusTypeTurnedOff : Nat := 0x04

/-- StatusTypeNotification constant (0x05). -/
def StatusTypeNotification : Nat := 0x05

/-- StatusTypePhaseChange constant (0x06). -/
def StatusTypePhaseChange : Nat := 0x06

/-- The error-name table for status byte 8 (ql.go lines 704-706). -/
def errorTable1 : List String :=
  ["no media", "end of media", "cutter jam", "?", "printer in use",
   "printer turned off", "high-voltage adapter", "fan motor error"]

/-- The error-name table for status byte 9 (ql.go lines 707-710). -/
def errorTable2 : List String :=
  ["replace media", "expansion buffer full", "communication error",
   "communication buffer full", "cover open", "cancel key",
   "media cannot be fed", "system error"]

/-- decodeBitfieldErrors of ql.go (lines 693-701): for i in 0..7, the name
errors[i] is emitted iff bit i of b is set. -/
def decodeBitfieldErrors (b : Nat) (errs : List String) : List String :=
  (List.range 8).filterMap
    (fun i => if b &&& (1 <<< i) ≠ 0 then some (errs.getD i default) else none)

/-- Errors method of Status (ql.go lines 703-712): the byte-8 names followed
by the byte-9 names. -/
def Status.Errors (s : Status) : List String :=
  decodeBitfieldErrors (s 8) errorTable1 ++ decodeBitfieldErrors (s 9) errorTable2

/-- Low byte of a Go int as byte(x) computes it: x modulo 256. -/
def goByte (n : Int) : Nat := (n % 256).toNat

/-- Arithmetic right shift of a Go int: floor division by 2 ^ k. -/
def goShr (n : Int) (k : Nat) : Int := Int.fdiv n (2 ^ k)

/-- makePrintData of ql.go (lines 216-277): nil (none) when the media lookup
fails, otherwise the full wire command sequence; some (Except.error ())
when the raster encoder panics. -/
def makePrintData (status : Status) (img : QLImage) (rb : Bool) :
    Option (Except Unit (List Nat)) :=
  match GetMediaInfo (Status.MediaWidthMM status) (Status.MediaLengthMM status) with
  | none => none
  | some mediaInfo =>
    let dy : Int :=
      if mediaInfo.PrintAreaLength ≠ 0 then mediaInfo.PrintAreaLength
      else img.maxY - img.minY
    let mediaType : Nat := if Status.MediaLengthMM status ≠ 0 then 0x0b else 0x0a
    match makeBitmapData img rb mediaInfo.SideMarginPins dy with
    | Except.error e => some (Except.error e)
    | Except.ok bitmapData => some (Except.ok (
        [0x1b, 0x69, 0x61, 0x01] ++
        [0x1b, 0x69, 0x21, 0x00] ++
        [0x1b, 0x69, 0x7a, 0xc6, mediaType,
          goByte (Status.MediaWidthMM status), goByte (Status.MediaLengthMM status),
          goByte dy, goByte (goShr dy 8), goByte (goShr dy 16), goByte (goShr dy 24),
          0, 0x00] ++
        [0x1b, 0x69, 0x4d, 0x40] ++
        [0x1b, 0x69, 0x41, 0x01] ++
        (if rb then [0x1b, 0x69, 0x4b, 0x09] else [0x1b, 0x69, 0x4b, 0x08]) ++
        (if Status.MediaLengthMM status ≠ 0 then [0x1b, 0x69, 0x64, 0x23, 0x00]
         else [0x1b, 0x69, 0x64, 0x00, 0x00]) ++
        [0x4d, 0x00] ++
        bitmapData ++
        [0x1a]))

/-- The printer session state the print path touches: the last decoded
status (LastStatus field). -/
structure Session where
  lastStatus : Option Status

/-- Terminal outcome of a Print call. -/
inductive PrintOutcome where
  | ok
  | unknownMedia
  | runtimePanic
  | pollFailure
  | printerError
  | unexpectedStatus
  deriving DecidableEq

/-- The status-polling loop of Print: each successful poll stores the status
into the session (updateStatus), then the switch on Type() decides: phase
change keeps polling, printing completed succeeds, error occurred fails with
the printer error, anything else is an unexpected status.  An exhausted
device stream models a failed poll (timeout / IO error propagated). -/
def printLoop : Session → List Status → Session × PrintOutcome
  | sess, [] => (sess, PrintOutcome.pollFailure)
  | _, s :: rest =>
    let sess2 : Session := ⟨some s⟩
    if Status.statusType s = StatusTypePhaseChange then printLoop sess2 rest
    else if Status.statusType s = StatusTypePrintingCompleted then
      (sess2, PrintOutcome.ok)
    else if Status.statusType s = StatusTypeErrorOccurred then
      (sess2, PrintOutcome.printerError)
    else (sess2, PrintOutcome.unexpectedStatus)

/-- Print of the printer session: build the job from the last status (a nil
LastStatus would be dereferenced inside makePrintData: runtime panic), fail
with unknown media before writing anything when the job is nil, otherwise
write the job bytes and poll until a terminal outcome.  Returns the final
session state, the bytes written to the device, and the outcome. -/
def Print (sess : Session) (img : QLImage) (rb : Bool) (device : List Status) :
    Session × List Nat × PrintOutcome :=
  match sess.lastStatus with
  | none => (sess, [], PrintOutcome.runtimePanic)
  | some st =>
    match makePrintData st img rb with
    | none => (sess, [], PrintOutcome.unknownMedia)
    | some (Except.error _) => (sess, [], PrintOutcome.runtimePanic)
    | some (Except.ok data) =>
      let r := printLoop sess device
      (r.1, data, r.2)

/-
Shared example inputs used by concrete witnesses and counterexamples.
-/

/-- A 1 x 1 all-white image. -/
def imgTiny : QLImage := ⟨0, 0, 1, 1, fun _ _ => ⟨0xffff, 0xffff, 0xffff, 0xffff⟩⟩

/-- A 720 x 1 all-white image (as wide as the full physical row). -/
def imgWhite720 : QLImage :=
  ⟨0, 0, 720, 1, fun _ _ => ⟨0xffff, 0xffff, 0xffff, 0xffff⟩⟩

/-- A 720 x 1 image whose only black pixel is at the leftmost column x = 0. -/
def imgLeftPixel : QLImage :=
  ⟨0, 0, 720, 1, fun x _ =>
    if x = 0 then ⟨0, 0, 0, 0xffff⟩ else ⟨0xffff, 0xffff, 0xffff, 0xffff⟩⟩

/-- The packed 90 bytes produced for the single row of imgLeftPixel. -/
def packedLeftRow : List Nat := List.replicate 89 0 ++ [1]

/-- A 1 x 1 image of one opaque dark-gray pixel (channels 0x3000). -/
def imgGray : QLImage := ⟨0, 0, 1, 1, fun _ _ => ⟨0x3000, 0x3000, 0x3000, 0xffff⟩⟩

/-- An empty (zero-area) image. -/
def imgEmpty : QLImage := ⟨0, 0, 0, 0, fun _ _ => ⟨0, 0, 0, 0⟩⟩

/-- A status packet reporting 29 mm continuous tape (catalog entry (29, 0)). -/
def stMedia29 : Status := fun i => if i.val = 10 then 29 else 0

/-- A status packet whose status-type byte is PhaseChange (0x06). -/
def stPhase : Status := fun i => if i.val = 18 then 6 else 0

/-- A status packet whose status-type byte is PrintingCompleted (0x01). -/
def stDone : Status := fun i => if i.val = 18 then 1 else 0

/-- A status packet whose status-type byte is ErrorOccurred (0x02). -/
def stErr : Status := fun i => if i.val = 18 then 2 else 0

/-- An all-zero status packet: media (0, 0), which has no catalog entry. -/
def stZero : Status := fun _ => 0

/-- A 32-byte status packet with chosen values for the defined fields at
their documented offsets: media width at 10, media length at 17, status
type at 18, phase at 19, phase number big-endian at 20-21; all other
bytes zero. -/
def mkStatusPacket (w l t p n : Nat) : Status :=
  fun i =>
    if i.val = 10 then w else if i.val = 17 then l else if i.val = 18 then t
    else if i.val = 19 then p else if i.val = 20 then n / 256
    else if i.val = 21 then n % 256 else 0

/-- State of one plane's cell array after the red-black row loop has
consumed the rows ys, starting from the all-false initial array: exactly
the accumulator makeBitmapDataLoopRB threads through rowPixelsWith for
that plane. -/
def rbPlaneState (classify : RGBA → Bool) (img : QLImage) (margin maxX : Int)
    (n : Nat) (ys : List Int) : Nat → Bool :=
  ys.foldl (fun st y => rowPixelsWith classify img margin maxX n y st) (fun _ => false)

/-
Helper lemmas shared by the claim theorems.
-/

lemma packByte_eq (px : Nat → Bool) (i : Nat) :
    packByte px i =
      128 * (if px (i * 8) then 1 else 0) + 64 * (if px (i * 8 + 1) then 1 else 0)
      + 32 * (if px (i * 8 + 2) then 1 else 0) + 16 * (if px (i * 8 + 3) then 1 else 0)
      + 8 * (if px (i * 8 + 4) then 1 else 0) + 4 * (if px (i * 8 + 5) then 1 else 0)
      + 2 * (if px (i * 8 + 6) then 1 else 0) + (if px (i * 8 + 7) then 1 else 0) := by
  have h8 : List.range 8 = [0, 1, 2, 3, 4, 5, 6, 7] := rfl
  simp only [packByte, h8, List.foldl_cons, List.foldl_nil, Nat.add_zero]
  ring

lemma getD_pack (px : Nat → Bool) (q : Nat) (hq : q < 90) :
    (pack px).getD q 0 = packByte px q := by
  simp [pack, printBytes, List.getD_eq_getElem?_getD, List.getElem?_map,
    List.getElem?_range, hq]

lemma bitAt_pack (px : Nat → Bool) (off : Nat) (h : off < 720) :
    bitAt (pack px) off = if px off then 1 else 0 := by
  obtain ⟨q, r, hr8, rfl⟩ : ∃ q r, r < 8 ∧ off = q * 8 + r :=
    ⟨off / 8, off % 8, by omega, by omega⟩
  have hq : (q * 8 + r) / 8 = q := by omega
  have hr : (q * 8 + r) % 8 = r := by omega
  unfold bitAt
  rw [hq, hr, getD_pack px q (by omega), packByte_eq]
  have b0 : (if px (q * 8) then 1 else 0) ≤ 1 := by split <;> omega
  have b1 : (if px (q * 8 + 1) then 1 else 0) ≤ 1 := by split <;> omega
  have b2 : (if px (q * 8 + 2) then 1 else 0) ≤ 1 := by split <;> omega
  have b3 : (if px (q * 8 + 3) then 1 else 0) ≤ 1 := by split <;> omega
  have b4 : (if px (q * 8 + 4) then 1 else 0) ≤ 1 := by split <;> omega
  have b5 : (if px (q * 8 + 5) then 1 else 0) ≤ 1 := by split <;> omega
  have b6 : (if px (q * 8 + 6) then 1 else 0) ≤ 1 := by split <;> omega
  have b7 : (if px (q * 8 + 7) then 1 else 0) ≤ 1 := by split <;> omega
  interval_cases r <;> simp only [Nat.add_zero] at * <;> omega

lemma pack_length (px : Nat → Bool) : (pack px).length = 90 := by
  simp [pack, printBytes]

lemma length_range_map (f : Nat → Int) (k : Nat) :
    ((List.range k).map f).length = k := by
  simp

lemma loopMono_length (img : QLImage) (margin maxX : Int) (n : Nat) :
    ∀ (ys : List Int) (px : Nat → Bool),
      (makeBitmapDataLoopMono img margin maxX n ys px).length = 93 * ys.length := by
  intro ys
  induction ys with
  | nil => intro px; rfl
  | cons y ys ih =>
    intro px
    simp only [makeBitmapDataLoopMono, List.length_append, List.length_cons, ih,
      pack_length]
    simp
    ring

lemma loopRB_length (img : QLImage) (margin maxX : Int) (n : Nat) :
    ∀ (ys : List Int) (red black : Nat → Bool),
      (makeBitmapDataLoopRB img margin maxX n ys red black).length = 186 * ys.length := by
  intro ys
  induction ys with
  | nil => intro red black; rfl
  | cons y ys ih =>
    intro red black
    simp only [makeBitmapDataLoopRB, List.length_append, List.length_cons, ih,
      pack_length]
    simp
    ring

lemma blankMono_length (m : Nat) : (blankRowsMono m).length = 93 * m := by
  induction m with
  | zero => rfl
  | succ k ih =>
    simp only [blankRowsMono, List.length_append, ih, List.length_replicate]
    simp
    ring

lemma blankRB_length (m : Nat) : (blankRowsRB m).length = 186 * m := by
  induction m with
  | zero => rfl
  | succ k ih =>
    simp only [blankRowsRB, List.length_append, ih, List.length_replicate]
    simp
    ring

lemma windowRows_zero (img : QLImage) : windowRows img 0 = 0 := by
  unfold windowRows clampedMaxY
  split <;> omega

lemma makeBitmapDataMono_zeroLen (img : QLImage) (margin : Int) :
    makeBitmapDataMono img margin 0 = Except.ok [] := by
  unfold makeBitmapDataMono
  rw [if_neg]
  · rw [windowRows_zero]
    simp [makeBitmapDataLoopMono, blankRowsMono]
  · simp [pixelsIndexOOB, windowRows_zero]

lemma makeBitmapDataRB_zeroLen (img : QLImage) (margin : Int) :
    makeBitmapDataRB img margin 0 = Except.ok [] := by
  unfold makeBitmapDataRB
  rw [if_neg]
  · rw [windowRows_zero]
    simp [makeBitmapDataLoopRB, blankRowsRB]
  · simp [pixelsIndexOOB, windowRows_zero]

lemma printLoop_skip_phase (sess : Session) (u : Status) (rest : List Status)
    (h : Status.statusType u = StatusTypePhaseChange) :
    printLoop sess (u :: rest) = printLoop ⟨some u⟩ rest := by
  simp only [printLoop, h, if_pos]

lemma printLoop_first_decisive :
    ∀ (pre : List Status), (∀ u ∈ pre, Status.statusType u = StatusTypePhaseChange) →
    ∀ (sess : Session) (s : Status) (rest : List Status),
    Status.statusType s ≠ StatusTypePhaseChange →
    (printLoop sess (pre ++ s :: rest)).2 =
      (if Status.statusType s = StatusTypePrintingCompleted then PrintOutcome.ok
       else if Status.statusType s = StatusTypeErrorOccurred then PrintOutcome.printerError
       else PrintOutcome.unexpectedStatus) := by
  intro pre
  induction pre with
  | nil =>
    intro _ sess s rest hs
    rw [List.nil_append]
    simp only [printLoop, if_neg hs]
    split_ifs <;> rfl
  | cons u pre ih =>
    intro hall sess s rest hs
    rw [List.cons_append, printLoop_skip_phase _ _ _ (hall u (by simp))]
    exact ih (fun v hv => hall v (by simp [hv])) _ s rest hs

lemma printLoop_all_phase :
    ∀ (dev : List Status), (∀ u ∈ dev, Status.statusType u = StatusTypePhaseChange) →
    ∀ sess : Session, (printLoop sess dev).2 = PrintOutcome.pollFailure := by
  intro dev
  induction dev with
  | nil => intro _ _; rfl
  | cons u rest ih =>
    intro hall sess
    rw [printLoop_skip_phase _ _ _ (hall u (by simp))]
    exact ih (fun v hv => hall v (by simp [hv])) _

lemma and_shift_ne_zero (b i : Nat) : (b &&& (1 <<< i) ≠ 0) ↔ Nat.testBit b i := by
  rw [Nat.shiftLeft_eq, one_mul, Nat.and_two_pow]
  rcases h : b.testBit i with _ | _ <;> simp [h]

/-
Claim theorems.
-/

/-- C1: During print polling, for every sequence of decoded status packets,
Print treats status-type PhaseChange (0x06) as informational and keeps
polling, returns success on PrintingCompleted (0x01), fails with
PrinterError on ErrorOccurred (0x02), and fails with UnexpectedStatus on any
other status-type value; if the device only ever reports PhaseChange the
loop consumes the whole stream and ends in the poll failure of the final
read. -/
theorem print_poll_classification (sess : Session) (st : Status) (img : QLImage)
    (rb : Bool) (hs : sess.lastStatus = some st)
    (hdata : ∃ bs, makePrintData st img rb = some (Except.ok bs)) :
    (∀ (pre : List Status) (s : Status) (rest : List Status),
      (∀ u ∈ pre, Status.statusType u = StatusTypePhaseChange) →
      Status.statusType s ≠ StatusTypePhaseChange →
      (Print sess img rb (pre ++ s :: rest)).2.2 =
        (if Status.statusType s = StatusTypePrintingCompleted then PrintOutcome.ok
         else if Status.statusType s = StatusTypeErrorOccurred then
           PrintOutcome.printerError
         else PrintOutcome.unexpectedStatus)) ∧
    (∀ device : List Status,
      (∀ u ∈ device, Status.statusType u = StatusTypePhaseChange) →
      (Print sess img rb device).2.2 = PrintOutcome.pollFailure) := by
  obtain ⟨bs, hbs⟩ := hdata
  have hPrint : ∀ device : List Status,
      (Print sess img rb device).2.2 = (printLoop sess device).2 := by
    intro device
    simp only [Print, hs, hbs]
  constructor
  · intro pre s rest hall hs2
    rw [hPrint]
    exact printLoop_first_decisive pre hall sess s rest hs2
  · intro device hall
    rw [hPrint]
    exact printLoop_all_phase device hall sess

/-- Witness for C1: a device that answers PhaseChange, PhaseChange,
PrintingCompleted makes Print succeed, and one that answers ErrorOccurred
makes it fail with the printer error. -/
theorem print_poll_classification_witness :
    (Print ⟨some stMedia29⟩ imgEmpty false ([stPhase, stPhase] ++ stDone :: [])).2.2 =
      PrintOutcome.ok ∧
    (Print ⟨some stMedia29⟩ imgEmpty false ([] ++ stErr :: [])).2.2 =
      PrintOutcome.printerError := by
  have h := print_poll_classification ⟨some stMedia29⟩ stMedia29 imgEmpty false rfl
    ⟨_, rfl⟩
  constructor
  · have h1 := h.1 [stPhase, stPhase] stDone []
      (by intro u hu
          simp only [List.mem_cons, List.not_mem_nil, or_false] at hu
          rcases hu with rfl | rfl <;> rfl)
      (by intro hc; exact absurd hc (by decide))
    exact h1.trans (by decide)
  · have h2 := h.1 [] stErr []
      (by intro u hu; exact absurd hu (List.not_mem_nil u))
      (by intro hc; exact absurd hc (by decide))
    exact h2.trans (by decide)

/-- C2: For every Status whose media (width mm, length mm) pair has no
MediaCatalog entry, print fails with UnknownMedia before writing any bytes
to the device: makePrintData returns nil (none), the list of written bytes
is empty, and the session state is returned untouched. -/
theorem print_unknown_media (sess : Session) (st : Status) (img : QLImage)
    (rb : Bool) (device : List Status) (hs : sess.lastStatus = some st)
    (h : GetMediaInfo (Status.MediaWidthMM st) (Status.MediaLengthMM st) = none) :
    makePrintData st img rb = none ∧
    Print sess img rb device = (sess, [], PrintOutcome.unknownMedia) := by
  have hmk : makePrintData st img rb = none := by
    unfold makePrintData
    rw [h]
  refine ⟨hmk, ?_⟩
  simp only [Print, hs, hmk]

/-- Witness for C2: an all-zero status reports media (0, 0), which has no
catalog entry, so Print fails with UnknownMedia writing nothing. -/
theorem print_unknown_media_witness :
    makePrintData stZero imgTiny false = none ∧
    Print ⟨some stZero⟩ imgTiny false [] =
      (⟨some stZero⟩, [], PrintOutcome.unknownMedia) :=
  print_unknown_media ⟨some stZero⟩ stZero imgTiny false [] rfl rfl

/-- C3 (amended): for every bitmap, margin and positive targetLengthPins,
a successful raster encoding holds exactly targetLengthPins rows (93 bytes
per monochrome row, 186 per red-black row): image rows beyond the target
are dropped and the remainder is a suffix of fully blank rows; when
targetLengthPins is zero the encoding is empty - zero rows, not the
image's own row count. -/
theorem raster_row_count (img : QLImage) (margin L : Int) (hL : 0 < L) :
    (∀ data, makeBitmapData img false margin L = Except.ok data →
      data.length = 93 * L.toNat ∧
      List.IsSuffix (blankRowsMono ((L - (windowRows img L : Int)).toNat)) data) ∧
    (∀ data, makeBitmapData img true margin L = Except.ok data →
      data.length = 186 * L.toNat) ∧
    makeBitmapData img false margin 0 = Except.ok [] ∧
    makeBitmapData img true margin 0 = Except.ok [] := by
  refine ⟨?_, ?_, makeBitmapDataMono_zeroLen img margin,
    makeBitmapDataRB_zeroLen img margin⟩
  · intro data h
    simp only [makeBitmapData, Bool.false_eq_true, ite_false] at h
    unfold makeBitmapDataMono at h
    split at h
    · exact absurd h (by simp)
    · have hdata := (Except.ok.injEq _ _).mp h
      subst hdata
      constructor
      · rw [List.length_append, loopMono_length, blankMono_length, length_range_map]
        have h1 : (windowRows img L : Int) ≤ L := by
          unfold windowRows clampedMaxY
          split <;> omega
        omega
      · exact ⟨_, rfl⟩
  · intro data h
    simp only [makeBitmapData, ite_true] at h
    unfold makeBitmapDataRB at h
    split at h
    · exact absurd h (by simp)
    · have hdata := (Except.ok.injEq _ _).mp h
      subst hdata
      rw [List.length_append, loopRB_length, blankRB_length, length_range_map]
      have h1 : (windowRows img L : Int) ≤ L := by
        unfold windowRows clampedMaxY
        split <;> omega
      omega

/-- Witness for C3: a 1-row image encoded with target length 3 yields
3 * 93 = 279 bytes, i.e. exactly 3 rows. -/
theorem raster_row_count_witness :
    ((makeBitmapData imgTiny false 0 3).toOption.getD []).length = 279 := by
  have h := ((raster_row_count imgTiny 0 3 (by decide)).1
    ((makeBitmapData imgTiny false 0 3).toOption.getD []) rfl).1
  exact h.trans (by decide)

/-- Counterexample for C3 as stated: with targetLengthPins 0 and a 1-row
image, the encoding is empty (zero rows), not one row as the claim's
zero-target clause demands. -/
theorem raster_zero_target_counterexample :
    makeBitmapData imgTiny false 0 0 = Except.ok [] ∧
      imgTiny.maxY - imgTiny.minY = 1 := ⟨rfl, rfl⟩

/-- C4: with margin 6 (the 29 mm media margin) and a full-width 720-pin
image, both the monochrome and the red-black encoder index the 720-cell
pixels array out of bounds - a Go runtime panic, not silent truncation:
the X clamp extends Max.X to Min.X + 720 whenever Dx exceeds
720 - margin, so offsets margin .. margin + 719 are written. -/
theorem raster_margin_overflow_panics :
    makeBitmapData imgWhite720 false 6 1 = Except.error () ∧
    makeBitmapData imgWhite720 true 6 1 = Except.error () := ⟨rfl, rfl⟩

/-- C5 (amended): in monochrome encoding a visible pixel produces a mark
(a 1 bit in the packed row) iff its red, green and blue channels are each
below 0x4000 and its alpha is at least 0x8000 - a near-black threshold,
not the exact-zero test the claim states. -/
theorem mono_mark_threshold (img : QLImage) (margin maxX : Int) (n : Nat) (y : Int)
    (prev : Nat → Bool) (off : Nat) (hoff : off < 720)
    (h1 : margin ≤ (off : Int)) (h2 : (off : Int) < margin + n) :
    (bitAt (pack (rowPixelsWith monoClassify img margin maxX n y prev)) off = 1 ↔
      ((img.pixel (maxX - 1 - ((off : Int) - margin)) y).r < 0x4000 ∧
       (img.pixel (maxX - 1 - ((off : Int) - margin)) y).g < 0x4000 ∧
       (img.pixel (maxX - 1 - ((off : Int) - margin)) y).b < 0x4000 ∧
       0x8000 ≤ (img.pixel (maxX - 1 - ((off : Int) - margin)) y).a)) := by
  rw [bitAt_pack _ _ hoff]
  have hwin : rowPixelsWith monoClassify img margin maxX n y prev off
      = monoClassify (img.pixel (maxX - 1 - ((off : Int) - margin)) y) := by
    unfold rowPixelsWith
    rw [if_pos]
    exact ⟨h1, h2⟩
  rw [hwin]
  rcases hm : monoClassify (img.pixel (maxX - 1 - ((off : Int) - margin)) y) with _ | _
  · unfold monoClassify at hm
    simp only [Bool.and_eq_false_iff, decide_eq_false_iff_not, not_lt, not_le] at hm
    simp only [Bool.false_eq_true, if_false]
    constructor
    · intro h
      exact absurd h (by decide)
    · rintro ⟨ha, hb, hc, hd⟩
      exfalso
      rcases hm with ((h | h) | h) | h <;> omega
  · unfold monoClassify at hm
    simp only [Bool.and_eq_true, decide_eq_true_iff] at hm
    simp only [if_true]
    exact ⟨fun _ => ⟨hm.1.1.1, hm.1.1.2, hm.1.2, hm.2⟩, fun _ => trivial⟩

/-- Witness for C5: an opaque dark-gray pixel (channels 0x3000, below the
threshold but not zero) is marked in the packed row. -/
theorem mono_mark_threshold_witness :
    bitAt (pack (rowPixelsWith monoClassify imgGray 0 1 1 0 (fun _ => false))) 0 = 1 :=
  (mono_mark_threshold imgGray 0 1 1 0 (fun _ => false) 0 (by decide) (by decide)
    (by decide)).mpr (by decide)

/-- Counterexample for C5 as stated: encoding the opaque dark-gray 1 x 1
image produces a mark (first packed byte 128, most-significant bit set)
although the pixel's red channel is 0x3000, not zero - so the exact-zero
(pure black only) classification the claim states is not what the encoder
does. -/
theorem mono_gray_marks_counterexample :
    makeBitmapData imgGray false 0 1 =
      Except.ok ([103, 0, 90] ++ (128 :: List.replicate 89 0)) ∧
    (imgGray.pixel 0 0).r ≠ 0 := ⟨rfl, by decide⟩

/-- C6: status decoding is total by construction (any 32-byte packet gives
every field a value) and is the identity on round-trip for every defined
field: building a packet with chosen byte values at the documented offsets
(width 10, length 17, status type 18, phase 19, phase number big-endian
20-21) and decoding it reproduces exactly those values. -/
theorem status_decode_roundtrip (w l t p n : Nat)
    (hw : w < 256) (hl : l < 256) (ht : t < 256) (hp : p < 256) (hn : n < 65536) :
    Status.MediaWidthMM (mkStatusPacket w l t p n) = (w : Int) ∧
    Status.MediaLengthMM (mkStatusPacket w l t p n) = (l : Int) ∧
    Status.statusType (mkStatusPacket w l t p n) = t ∧
    Status.phase (mkStatusPacket w l t p n) = p ∧
    Status.phaseNumber (mkStatusPacket w l t p n) = (n : Int) := by
  refine ⟨rfl, rfl, rfl, rfl, ?_⟩
  show ((n / 256 : Nat) : Int) * 256 + ((n % 256 : Nat) : Int) = (n : Int)
  omega

/-- Witness for C6: the concrete packet (width 29, length 90, type 6,
phase 1, phase number 515) decodes back to exactly those values. -/
theorem status_decode_roundtrip_witness :
    Status.MediaWidthMM (mkStatusPacket 29 90 6 1 515) = 29 ∧
    Status.MediaLengthMM (mkStatusPacket 29 90 6 1 515) = 90 ∧
    Status.statusType (mkStatusPacket 29 90 6 1 515) = 6 ∧
    Status.phase (mkStatusPacket 29 90 6 1 515) = 1 ∧
    Status.phaseNumber (mkStatusPacket 29 90 6 1 515) = 515 :=
  status_decode_roundtrip 29 90 6 1 515 (by decide) (by decide) (by decide)
    (by decide) (by decide)

set_option maxRecDepth 100000 in
/-- C7 (amended): encoding the one-row 720-pin-wide bitmap whose only
mark-classified pixel is at the leftmost visible column sets exactly one
pixel bit, at pin offset 719 - the least-significant bit of the last
(90th) data byte, because the reverse horizontal scan sends the leftmost
column to the highest offset and pack puts the highest offset of a byte
group in the least-significant bit. -/
theorem leftmost_pixel_last_byte (off : Nat) (hoff : off < 720) :
    makeBitmapData imgLeftPixel false 0 1 = Except.ok ([103, 0, 90] ++ packedLeftRow) ∧
    (bitAt packedLeftRow off = 1 ↔ off = 719) := by
  refine ⟨rfl, ?_⟩
  revert hoff
  revert off
  decide

/-- Witness for C7: the least-significant bit of the last data byte is
indeed set. -/
theorem leftmost_pixel_last_byte_witness : bitAt packedLeftRow 719 = 1 :=
  (leftmost_pixel_last_byte 719 (by decide)).2.mpr rfl

set_option maxRecDepth 100000 in
/-- Counterexample for C7 as stated: in the encoded row the most-significant
bit of the last (90th) data byte (pin offset 712) is clear - the mark sits
in the least-significant bit (pin offset 719), refuting the claimed MSB
position. -/
theorem leftmost_pixel_msb_counterexample :
    makeBitmapData imgLeftPixel false 0 1 = Except.ok ([103, 0, 90] ++ packedLeftRow) ∧
    bitAt packedLeftRow 712 = 0 ∧ bitAt packedLeftRow 719 = 1 :=
  ⟨rfl, by decide, by decide⟩

/-- C8: MediaCatalog lookup agrees pointwise with the static table: any
(width, length) key absent from the table yields none, every listed pair
yields exactly its listed tuple, and in particular (29, 0) yields margin 6,
width 306, length 0 and (29, 90) yields margin 6, width 306, length 991. -/
theorem media_lookup_pointwise (w l : Int) :
    ((∀ e ∈ media, e.1 ≠ (w, l)) → GetMediaInfo w l = none) ∧
    (∀ mi : MediaInfo, ((w, l), mi) ∈ media → GetMediaInfo w l = some mi) ∧
    GetMediaInfo 29 0 = some ⟨6, 306, 0⟩ ∧
    GetMediaInfo 29 90 = some ⟨6, 306, 991⟩ := by
  refine ⟨?_, ?_, rfl, rfl⟩
  · intro habs
    unfold GetMediaInfo
    cases hfind : media.find? (fun e => e.1.1 == w && e.1.2 == l) with
    | none => rfl
    | some e =>
      have hmem := List.mem_of_find?_eq_some hfind
      have hp := List.find?_some hfind
      simp only [Bool.and_eq_true, beq_iff_eq] at hp
      exact absurd (Prod.ext hp.1 hp.2) (habs e hmem)
  · intro mi h
    simp only [media, List.mem_cons, List.not_mem_nil, or_false, Prod.mk.injEq] at h
    rcases h with ⟨⟨rfl, rfl⟩, rfl⟩ | ⟨⟨rfl, rfl⟩, rfl⟩ | ⟨⟨rfl, rfl⟩, rfl⟩ |
      ⟨⟨rfl, rfl⟩, rfl⟩ | ⟨⟨rfl, rfl⟩, rfl⟩ | ⟨⟨rfl, rfl⟩, rfl⟩ | ⟨⟨rfl, rfl⟩, rfl⟩ |
      ⟨⟨rfl, rfl⟩, rfl⟩ | ⟨⟨rfl, rfl⟩, rfl⟩ | ⟨⟨rfl, rfl⟩, rfl⟩ | ⟨⟨rfl, rfl⟩, rfl⟩ |
      ⟨⟨rfl, rfl⟩, rfl⟩ | ⟨⟨rfl, rfl⟩, rfl⟩ | ⟨⟨rfl, rfl⟩, rfl⟩ | ⟨⟨rfl, rfl⟩, rfl⟩ |
      ⟨⟨rfl, rfl⟩, rfl⟩ | ⟨⟨rfl, rfl⟩, rfl⟩ | ⟨⟨rfl, rfl⟩, rfl⟩ | ⟨⟨rfl, rfl⟩, rfl⟩ |
      ⟨⟨rfl, rfl⟩, rfl⟩ | ⟨⟨rfl, rfl⟩, rfl⟩ <;> rfl

/-- Witness for C8: the unlisted pair (13, 13) yields none and the listed
pair (29, 0) yields its tuple. -/
theorem media_lookup_witness :
    GetMediaInfo 13 13 = none ∧ GetMediaInfo 29 0 = some ⟨6, 306, 0⟩ :=
  ⟨(media_lookup_pointwise 13 13).1 (by decide),
    (media_lookup_pointwise 29 0).2.2.1⟩

/-- C9: for every Status, Errors returns exactly the names whose bits are
set in the bitfields at offsets 8 and 9 according to the two fixed tables
(stated both as a list equality and as a membership characterization);
bits outside 0..7 and table-covered bits that are clear contribute no
entry. -/
theorem errors_bit_to_name (s : Status) :
    (Status.Errors s =
      (List.range 8).filterMap
        (fun i => if Nat.testBit (s 8) i then some (errorTable1.getD i default) else none)
      ++ (List.range 8).filterMap
        (fun i => if Nat.testBit (s 9) i then some (errorTable2.getD i default) else none)) ∧
    (∀ name : String, name ∈ Status.Errors s ↔
      ((∃ i, i < 8 ∧ Nat.testBit (s 8) i ∧ name = errorTable1.getD i default) ∨
       (∃ i, i < 8 ∧ Nat.testBit (s 9) i ∧ name = errorTable2.getD i default))) := by
  have hrw : ∀ b : Nat, ∀ tbl : List String,
      decodeBitfieldErrors b tbl =
        (List.range 8).filterMap
          (fun i => if Nat.testBit b i then some (tbl.getD i default) else none) := by
    intro b tbl
    unfold decodeBitfieldErrors
    apply List.filterMap_congr
    intro i _
    by_cases h : Nat.testBit b i
    · rw [if_pos ((and_shift_ne_zero b i).mpr h), if_pos h]
    · rw [if_neg (fun hc => h ((and_shift_ne_zero b i).mp hc)), if_neg h]
  constructor
  · exact congrArg₂ (· ++ ·) (hrw (s 8) errorTable1) (hrw (s 9) errorTable2)
  · intro name
    unfold Status.Errors
    rw [hrw (s 8) errorTable1, hrw (s 9) errorTable2]
    simp only [List.mem_append, List.mem_filterMap, List.mem_range]
    constructor
    · rintro (⟨i, hi, hsome⟩ | ⟨i, hi, hsome⟩)
      · left
        refine ⟨i, hi, ?_⟩
        by_cases h : Nat.testBit (s 8) i
        · rw [if_pos h] at hsome
          exact ⟨h, (Option.some_inj.mp hsome).symm⟩
        · rw [if_neg h] at hsome
          exact absurd hsome (by simp)
      · right
        refine ⟨i, hi, ?_⟩
        by_cases h : Nat.testBit (s 9) i
        · rw [if_pos h] at hsome
          exact ⟨h, (Option.some_inj.mp hsome).symm⟩
        · rw [if_neg h] at hsome
          exact absurd hsome (by simp)
    · rintro (⟨i, hi, hbit, rfl⟩ | ⟨i, hi, hbit, rfl⟩)
      · exact Or.inl ⟨i, hi, by rw [if_pos hbit]⟩
      · exact Or.inr ⟨i, hi, by rw [if_pos hbit]⟩

/-- C10: in red-black encoding no pixel is ever marked in both planes: the
red test (r at or above 0xc000) and the black test (r below 0x4000) are
mutually exclusive, and consequently the packed black and red planes of any
row of the loop (both plane states being reached from the all-false initial
arrays) have no bit position set in both. -/
theorem rb_planes_disjoint :
    (∀ c : RGBA, ¬(redClassify c = true ∧ blackClassify c = true)) ∧
    (∀ (img : QLImage) (margin maxX : Int) (n : Nat) (ys : List Int) (off : Nat),
      off < 720 →
      ¬(bitAt (pack (rbPlaneState blackClassify img margin maxX n ys)) off = 1 ∧
        bitAt (pack (rbPlaneState redClassify img margin maxX n ys)) off = 1)) := by
  have hcl : ∀ c : RGBA, ¬(redClassify c = true ∧ blackClassify c = true) := by
    rintro c ⟨hr, hb⟩
    unfold redClassify at hr
    unfold blackClassify at hb
    simp only [Bool.and_eq_true, decide_eq_true_iff] at hr hb
    omega
  refine ⟨hcl, ?_⟩
  intro img margin maxX n ys off hoff
  have hstate : ∀ (zs : List Int) (red black : Nat → Bool),
      (∀ o, ¬(red o = true ∧ black o = true)) →
      ∀ o, ¬((zs.foldl (fun st y => rowPixelsWith redClassify img margin maxX n y st) red) o = true ∧
             (zs.foldl (fun st y => rowPixelsWith blackClassify img margin maxX n y st) black) o = true) := by
    intro zs
    induction zs with
    | nil => intro red black h o; exact h o
    | cons y zs ih =>
      intro red black h o
      simp only [List.foldl_cons]
      apply ih
      intro o2
      unfold rowPixelsWith
      split_ifs
      · exact hcl _
      · exact h o2
  rintro ⟨hb, hr⟩
  rw [bitAt_pack _ _ hoff] at hb hr
  have hb2 : rbPlaneState blackClassify img margin maxX n ys off = true := by
    rcases hx : rbPlaneState blackClassify img margin maxX n ys off with _ | _
    · rw [hx] at hb
      exact absurd hb (by decide)
    · rfl
  have hr2 : rbPlaneState redClassify img margin maxX n ys off = true := by
    rcases hx : rbPlaneState redClassify img margin maxX n ys off with _ | _
    · rw [hx] at hr
      exact absurd hr (by decide)
    · rfl
  exact hstate ys (fun _ => false) (fun _ => false)
    (fun o hc => Bool.false_ne_true hc.1) off ⟨hr2, hb2⟩
